import Mathlib

set_option maxHeartbeats 1000000

/-! Verification of the git-mcp server's git tool layer.

This file gives a shallow embedding of the server's code:

* the provider interface (`src/providers/git-provider.ts`) becomes the
  `GitProvider` structure, whose primitives return `Except String α`
  (a thrown fault carries its human-readable message as the `String`);
* each configured operation (`src/git-tools/*.ts`) becomes a pure Lean
  function from a provider, the process working directory and the
  operation's argument bag to the returned response envelope together
  with the ordered list of provider primitive calls made during the
  invocation (the call trace);
* the static tool catalog and the handler table of `src/index.ts`
  become `tools` and `toolHandlerNames`, and the dispatcher's lookup
  branch becomes `dispatchReply`.

JavaScript truthiness tests on optional strings (`x || d`,
`if (args.x)`) are mirrored by `oTruthy` / `oGet`, so that an empty
string behaves like an absent argument exactly as in the source.
Optional numbers are modelled by `Option Int` (a JS `number` used as a
count or index); the truthiness of a number is `x != 0`.
-/

/-! ## Data model (src/providers/git-provider.ts) -/

structure GitStatusR where
  modified : List String
  created : List String
  deleted : List String
  renamed : List (String × String)
  conflicted : List String
  not_added : List String
  staged : List String
  current : Option String
  tracking : Option String
  ahead : Int
  behind : Int
  isClean : Bool
deriving Repr, DecidableEq

structure GitBranchInfo where
  name : String
  commit : String
  label : String
  current : Bool
deriving Repr, DecidableEq

structure GitBranchSummary where
  detached : Bool
  current : String
  all : List String
  branches : List (String × GitBranchInfo)
deriving Repr, DecidableEq

structure GitCommit where
  hash : String
  date : String
  message : String
  author_name : String
  author_email : String
  body : String
  refs : String
deriving Repr, DecidableEq

structure GitLogResult where
  all : List GitCommit
  total : Int
  latest : Option GitCommit
deriving Repr, DecidableEq

structure GitDiffFileRaw where
  file : String
  changes : Option Int
  insertions : Option Int
  deletions : Option Int
  binary : Bool
deriving Repr, DecidableEq

structure GitDiffSummaryRaw where
  files : List GitDiffFileRaw
  insertions : Int
  deletions : Int
  changed : Int
deriving Repr, DecidableEq

structure GitCommitSummary where
  changes : Int
  insertions : Int
  deletions : Int
deriving Repr, DecidableEq

structure GitCommitResult where
  commit : String
  branch : String
  author : Option String
  summary : GitCommitSummary
deriving Repr, DecidableEq

structure GitMergeResult where
  merges : List String
  conflicts : List String
  result : String
  summary : GitCommitSummary
deriving Repr, DecidableEq

structure GitStashEntry where
  hash : String
  date : String
  message : String
  index : Int
deriving Repr, DecidableEq

structure GitStashList where
  all : List GitStashEntry
  total : Int
  latest : Option GitStashEntry
deriving Repr, DecidableEq

structure GitRemoteRefs where
  fetch : String
  push : String
deriving Repr, DecidableEq

structure GitRemote where
  name : String
  refs : GitRemoteRefs
deriving Repr, DecidableEq

/-- Options for log operations (`GitLogOptions`); only the fields the
operations actually set are modelled. -/
structure GitLogOptions where
  maxCount : Option Int := none
  file : Option String := none
deriving Repr, DecidableEq

/-- Options bag for commit operations; `amendFlag` models the presence
of the valueless key generated by `options['--amend'] = null`. -/
structure GitCommitOptions where
  amendFlag : Bool := false
deriving Repr, DecidableEq

/-- Options bag for pull; `rebaseFlag` models the presence of the
valueless key generated by `options['--rebase'] = null`. -/
structure GitPullOptions where
  rebaseFlag : Bool := false
deriving Repr, DecidableEq

/-! ## Response payloads (src/types.ts and per-operation data shapes) -/

structure StatusData where
  modified : List String
  added : List String
  deleted : List String
  renamed : List String
  conflicted : List String
  notAdded : List String
  staged : List String
  current : Option String
  tracking : Option String
  ahead : Int
  behind : Int
  isClean : Bool
deriving Repr, DecidableEq

structure BranchListItem where
  name : String
  current : Bool
  commit : String
deriving Repr, DecidableEq

structure CommitInfo where
  hash : String
  date : String
  message : String
  author_name : String
  author_email : String
deriving Repr, DecidableEq

structure GitDiffFileInfo where
  file : String
  changes : Int
  insertions : Int
  deletions : Int
  binary : Bool
deriving Repr, DecidableEq

structure GitDiffSummaryInfo where
  files : List GitDiffFileInfo
  insertions : Int
  deletions : Int
  changed : Int
deriving Repr, DecidableEq

/-- The operation-specific `data` payload of a response envelope. -/
inductive GitData where
  | statusData (d : StatusData)
  | branches (l : List BranchListItem)
  | mergeResult (m : GitMergeResult)
  | diffPayload (summary : GitDiffSummaryInfo) (diffText : String)
  | commitData (commitId : String) (summary : GitCommitSummary)
  | commits (l : List CommitInfo)
  | text (s : String)
  | stashes (l : List GitStashEntry)
  | remotes (l : List GitRemote)
deriving Repr, DecidableEq

/-- The uniform response envelope (`GitOperationResponse`); an absent
`data` key is `none`. -/
structure GitOperationResponse where
  success : Bool
  message : String
  data : Option GitData := none
deriving Repr, DecidableEq

/-! ## The provider interface

Each primitive either completes (`Except.ok`) or raises a fault carrying
a message (`Except.error`).  The dual-arity `branch()` of the source is
split into `branch` (no-argument query) and `branchMutate` (argument
form), and `show` is named `showText` because `show` is a Lean keyword. -/

structure GitProvider where
  checkIsRepo : Except String Bool
  status : Except String GitStatusR
  initRepo : Except String Unit
  clone : String → String → Except String Unit
  branch : Except String GitBranchSummary
  branchMutate : List String → Except String Unit
  checkout : String → Except String Unit
  checkoutBranch : String → String → Except String Unit
  merge : List String → Except String GitMergeResult
  diff : List String → Except String String
  diffSummary : List String → Except String GitDiffSummaryRaw
  add : List String → Except String Unit
  reset : List String → Except String Unit
  raw : List String → Except String String
  commit : String → Option (List String) → GitCommitOptions → Except String GitCommitResult
  log : GitLogOptions → Except String GitLogResult
  showText : List String → Except String String
  rebase : List String → Except String Unit
  stash : List String → Except String Unit
  stashList : Except String GitStashList
  getRemotes : Bool → Except String (List GitRemote)
  addRemote : String → String → Except String Unit
  fetch : Option String → Option String → Except String Unit
  pull : Option String → Option String → GitPullOptions → Except String Unit
  push : Option String → Option String → List String → Except String Unit

/-- One recorded provider primitive invocation, with the arguments it
received. -/
inductive GitCall where
  | checkIsRepo
  | statusCall
  | initCall
  | clone (url target : String)
  | branchList
  | branchMutate (args : List String)
  | checkout (ref : String)
  | checkoutBranch (branchName startPoint : String)
  | merge (args : List String)
  | diff (args : List String)
  | diffSummary (args : List String)
  | add (files : List String)
  | reset (args : List String)
  | raw (args : List String)
  | commit (message : String) (files : Option (List String)) (options : GitCommitOptions)
  | log (options : GitLogOptions)
  | showCall (args : List String)
  | rebase (args : List String)
  | stash (args : List String)
  | stashList
  | getRemotes (verbose : Bool)
  | addRemote (name url : String)
  | fetch (remote branch : Option String)
  | pull (remote branch : Option String) (options : GitPullOptions)
  | push (remote branch : Option String) (options : List String)
deriving Repr, DecidableEq

/-! ## Helpers for JavaScript optional-string idioms -/

/-- JS truthiness of an optional string: `undefined` and `""` are falsy. -/
def oTruthy : Option String → Bool
  | some s => !(s == "")
  | none => false

/-- JS `x || d` on an optional string. -/
def oGet (x : Option String) (d : String) : String :=
  match x with
  | some s => if s == "" then d else s
  | none => d

/-- `repoPath || process.cwd()`: the resolved base path of a call. -/
def basePath (cwd : String) (repoPath : Option String) : String :=
  oGet repoPath cwd

/-- The failure envelope built by every operation's catch block. -/
def mkFail (pre m : String) : GitOperationResponse :=
  { success := false, message := pre ++ m, data := none }

/-- Result of the body of one operation: either the fault message that
escaped to the catch block, or a value, together with the trace of
primitive calls made so far. -/
abbrev OpResult (α : Type) := Except String α × List GitCall

/-- The provider factory `getGit` (`src/providers/simple-git.ts`): when
`required` it calls `checkIsRepo` and throws
`Not a git repository: <basePath>` if the target is not a repository;
when not `required` it makes no primitive call. -/
def getGitM (p : GitProvider) (cwd : String) (repoPath : Option String)
    (required : Bool) : OpResult Unit :=
  if required then
    match p.checkIsRepo with
    | .error m => (.error m, [.checkIsRepo])
    | .ok true => (.ok (), [.checkIsRepo])
    | .ok false =>
        (.error ("Not a git repository: " ++ basePath cwd repoPath), [.checkIsRepo])
  else (.ok (), [])

/-- The try/catch skeleton shared by every operation: a completed body
yields a success envelope from the returned message and data, a fault
yields the operation's fixed failure prefix followed by the fault's
message, with no data. -/
def runOp (pre : String) (b : OpResult (String × Option GitData)) :
    GitOperationResponse × List GitCall :=
  match b with
  | (.ok (msg, d), t) => ({ success := true, message := msg, data := d }, t)
  | (.error m, t) => (mkFail pre m, t)

/-! ## Argument bags (one structure per operation, field names as in the
TypeScript signatures; optional booleans are `Bool` with default
`false`, which is truthiness-equivalent to `undefined`) -/

structure RepoArg where
  repoPath : Option String := none
deriving Repr, DecidableEq

structure CloneArgs where
  url : String
  targetPath : Option String := none
  repoPath : Option String := none
deriving Repr, DecidableEq

structure BranchCreateArgs where
  branchName : String
  repoPath : Option String := none
deriving Repr, DecidableEq

structure BranchDeleteArgs where
  branchName : String
  force : Bool := false
  repoPath : Option String := none
deriving Repr, DecidableEq

structure CheckoutArgs where
  ref : String
  createBranch : Bool := false
  repoPath : Option String := none
deriving Repr, DecidableEq

structure MergeArgs where
  branch : String
  noFastForward : Bool := false
  repoPath : Option String := none
deriving Repr, DecidableEq

structure DiffArgs where
  files : Option (List String) := none
  cached : Bool := false
  fromCommit : Option String := none
  toCommit : Option String := none
  useThreeDotRange : Bool := false
  repoPath : Option String := none
deriving Repr, DecidableEq

structure AddArgs where
  files : List String
  repoPath : Option String := none
deriving Repr, DecidableEq

structure ResetArgs where
  files : Option (List String) := none
  mode : Option String := none
  commit : Option String := none
  repoPath : Option String := none
deriving Repr, DecidableEq

structure RestoreArgs where
  files : List String
  staged : Bool := false
  repoPath : Option String := none
deriving Repr, DecidableEq

structure CommitArgs where
  message : String
  files : Option (List String) := none
  amend : Bool := false
  repoPath : Option String := none
deriving Repr, DecidableEq

structure LogArgs where
  maxCount : Option Int := none
  file : Option String := none
  repoPath : Option String := none
deriving Repr, DecidableEq

structure ShowArgs where
  ref : Option String := none
  repoPath : Option String := none
deriving Repr, DecidableEq

structure RebaseArgs where
  branch : String
  interactive : Bool := false
  repoPath : Option String := none
deriving Repr, DecidableEq

structure StashArgs where
  message : Option String := none
  includeUntracked : Bool := false
  repoPath : Option String := none
deriving Repr, DecidableEq

structure StashPopArgs where
  index : Option Int := none
  repoPath : Option String := none
deriving Repr, DecidableEq

structure CherryPickArgs where
  commit : String
  repoPath : Option String := none
deriving Repr, DecidableEq

structure RemoteAddArgs where
  name : String
  url : String
  repoPath : Option String := none
deriving Repr, DecidableEq

structure FetchArgs where
  remote : Option String := none
  branch : Option String := none
  repoPath : Option String := none
deriving Repr, DecidableEq

structure PullArgs where
  remote : Option String := none
  branch : Option String := none
  rebase : Bool := false
  repoPath : Option String := none
deriving Repr, DecidableEq

structure PushArgs where
  remote : Option String := none
  branch : Option String := none
  force : Bool := false
  setUpstream : Bool := false
  repoPath : Option String := none
deriving Repr, DecidableEq

/-! ## Node path.basename with extension removal (used by gitClone) -/

/-- The last path segment of `p` (posix `path.basename` without an
extension argument): trailing separators are ignored, then the suffix
after the last separator is taken. -/
def lastSegment (p : String) : String :=
  String.mk (((p.data.reverse.dropWhile (fun c => c == '/')).takeWhile
    (fun c => !(c == '/'))).reverse)

/-- Node's `path.basename(p, ext)`: when the whole path equals `ext`
Node short-circuits and returns the empty string (`suffix === path`);
otherwise the last segment is taken, kept whole when it equals `ext`
(e.g. `/foo/.git` with ext `.git` gives `.git`), and with `ext`
stripped when it is a proper suffix of the segment. -/
def nodeBasename (p ext : String) : String :=
  if p == ext then ""
  else
    let b := lastSegment p
    if b == ext then b
    else if List.isSuffixOf ext.data b.data then
      String.mk (b.data.take (b.data.length - ext.data.length))
    else b

/-! ## Repository management operations
(src/git-tools/repository-management.ts) -/

/-- The `StatusData` mapping in `gitStatus`: renamed entries become
`"<from> -> <to>"` strings, `created` is exposed as `added`. -/
def statusDataOf (st : GitStatusR) : StatusData :=
  { modified := st.modified
    added := st.created
    deleted := st.deleted
    renamed := st.renamed.map (fun r => r.1 ++ " -> " ++ r.2)
    conflicted := st.conflicted
    notAdded := st.not_added
    staged := st.staged
    current := st.current
    tracking := st.tracking
    ahead := st.ahead
    behind := st.behind
    isClean := st.isClean }

def gitStatusBody (p : GitProvider) (cwd : String) (args : RepoArg) :
    OpResult (String × Option GitData) :=
  match getGitM p cwd args.repoPath true with
  | (.error m, t) => (.error m, t)
  | (.ok _, t) =>
    match p.status with
    | .error m => (.error m, t ++ [.statusCall])
    | .ok st =>
        (.ok (if st.isClean then "Working tree clean" else "Working tree has changes",
          some (.statusData (statusDataOf st))), t ++ [.statusCall])

def gitStatus (p : GitProvider) (cwd : String) (args : RepoArg) :
    GitOperationResponse × List GitCall :=
  runOp "Failed to get status: " (gitStatusBody p cwd args)

def gitInitBody (p : GitProvider) (cwd : String) (args : RepoArg) :
    OpResult (String × Option GitData) :=
  match getGitM p cwd args.repoPath false with
  | (.error m, t) => (.error m, t)
  | (.ok _, t) =>
    match p.initRepo with
    | .error m => (.error m, t ++ [.initCall])
    | .ok _ =>
        (.ok ("Initialized empty Git repository in " ++ basePath cwd args.repoPath,
          none), t ++ [.initCall])

def gitInit (p : GitProvider) (cwd : String) (args : RepoArg) :
    GitOperationResponse × List GitCall :=
  runOp "Failed to initialize repository: " (gitInitBody p cwd args)

def gitCloneBody (p : GitProvider) (cwd : String) (args : CloneArgs) :
    OpResult (String × Option GitData) :=
  match getGitM p cwd args.repoPath false with
  | (.error m, t) => (.error m, t)
  | (.ok _, t) =>
    let target := oGet args.targetPath (nodeBasename args.url ".git")
    match p.clone args.url target with
    | .error m => (.error m, t ++ [.clone args.url target])
    | .ok _ =>
        (.ok ("Cloned repository from " ++ args.url ++ " to " ++ target, none),
          t ++ [.clone args.url target])

def gitClone (p : GitProvider) (cwd : String) (args : CloneArgs) :
    GitOperationResponse × List GitCall :=
  runOp "Failed to clone repository: " (gitCloneBody p cwd args)

/-! ## Branch operations (src/git-tools/branch-operations.ts) -/

/-- The per-branch items built by `gitBranchList`:
`branches.branches[name]?.commit || ''`. -/
def branchItemsOf (b : GitBranchSummary) : List BranchListItem :=
  b.all.map (fun n =>
    ({ name := n
       current := n == b.current
       commit := (((b.branches.find? (fun q => q.1 == n)).map
         (fun q => q.2.commit)).getD "") } : BranchListItem))

def gitBranchListBody (p : GitProvider) (cwd : String) (args : RepoArg) :
    OpResult (String × Option GitData) :=
  match getGitM p cwd args.repoPath true with
  | (.error m, t) => (.error m, t)
  | (.ok _, t) =>
    match p.branch with
    | .error m => (.error m, t ++ [.branchList])
    | .ok b =>
        (.ok ("Found " ++ toString (branchItemsOf b).length ++ " branches",
          some (.branches (branchItemsOf b))), t ++ [.branchList])

def gitBranchList (p : GitProvider) (cwd : String) (args : RepoArg) :
    GitOperationResponse × List GitCall :=
  runOp "Failed to list branches: " (gitBranchListBody p cwd args)

def gitBranchCreateBody (p : GitProvider) (cwd : String) (args : BranchCreateArgs) :
    OpResult (String × Option GitData) :=
  match getGitM p cwd args.repoPath true with
  | (.error m, t) => (.error m, t)
  | (.ok _, t) =>
    match p.branchMutate [args.branchName] with
    | .error m => (.error m, t ++ [.branchMutate [args.branchName]])
    | .ok _ =>
        (.ok ("Created branch \x27" ++ args.branchName ++ "\x27", none),
          t ++ [.branchMutate [args.branchName]])

def gitBranchCreate (p : GitProvider) (cwd : String) (args : BranchCreateArgs) :
    GitOperationResponse × List GitCall :=
  runOp "Failed to create branch: " (gitBranchCreateBody p cwd args)

def gitBranchDeleteBody (p : GitProvider) (cwd : String) (args : BranchDeleteArgs) :
    OpResult (String × Option GitData) :=
  match getGitM p cwd args.repoPath true with
  | (.error m, t) => (.error m, t)
  | (.ok _, t) =>
    let deleteFlag := if args.force then "-D" else "-d"
    match p.branchMutate [deleteFlag, args.branchName] with
    | .error m => (.error m, t ++ [.branchMutate [deleteFlag, args.branchName]])
    | .ok _ =>
        (.ok ("Deleted branch \x27" ++ args.branchName ++ "\x27", none),
          t ++ [.branchMutate [deleteFlag, args.branchName]])

def gitBranchDelete (p : GitProvider) (cwd : String) (args : BranchDeleteArgs) :
    GitOperationResponse × List GitCall :=
  runOp "Failed to delete branch: " (gitBranchDeleteBody p cwd args)

def gitCheckoutBody (p : GitProvider) (cwd : String) (args : CheckoutArgs) :
    OpResult (String × Option GitData) :=
  match getGitM p cwd args.repoPath true with
  | (.error m, t) => (.error m, t)
  | (.ok _, t) =>
    if args.createBranch then
      match p.checkoutBranch args.ref "HEAD" with
      | .error m => (.error m, t ++ [.checkoutBranch args.ref "HEAD"])
      | .ok _ =>
          (.ok ("Created and switched to branch \x27" ++ args.ref ++ "\x27", none),
            t ++ [.checkoutBranch args.ref "HEAD"])
    else
      match p.checkout args.ref with
      | .error m => (.error m, t ++ [.checkout args.ref])
      | .ok _ =>
          (.ok ("Switched to \x27" ++ args.ref ++ "\x27", none),
            t ++ [.checkout args.ref])

def gitCheckout (p : GitProvider) (cwd : String) (args : CheckoutArgs) :
    GitOperationResponse × List GitCall :=
  runOp "Failed to checkout: " (gitCheckoutBody p cwd args)

def gitMergeBody (p : GitProvider) (cwd : String) (args : MergeArgs) :
    OpResult (String × Option GitData) :=
  match getGitM p cwd args.repoPath true with
  | (.error m, t) => (.error m, t)
  | (.ok _, t) =>
    let mergeArgs := (if args.noFastForward then ["--no-ff"] else []) ++ [args.branch]
    match p.merge mergeArgs with
    | .error m => (.error m, t ++ [.merge mergeArgs])
    | .ok r =>
        (.ok ("Merged branch \x27" ++ args.branch ++ "\x27",
          some (.mergeResult r)), t ++ [.merge mergeArgs])

def gitMerge (p : GitProvider) (cwd : String) (args : MergeArgs) :
    GitOperationResponse × List GitCall :=
  runOp "Failed to merge: " (gitMergeBody p cwd args)

/-! ## File operations (src/git-tools/file-operations.ts) -/

/-- The diff argument list built by `gitDiff`: `--cached` first, then
the range block (`from<op>to` when both commits are truthy, otherwise
the single truthy commit), then the `--`-separated file list. -/
def diffArgsFn (args : DiffArgs) : List String :=
  (if args.cached then ["--cached"] else []) ++
  (if oTruthy args.fromCommit || oTruthy args.toCommit then
    (if oTruthy args.fromCommit && oTruthy args.toCommit then
      [args.fromCommit.getD "" ++ (if args.useThreeDotRange then "..." else "..") ++
        args.toCommit.getD ""]
     else if oTruthy args.fromCommit then [args.fromCommit.getD ""]
     else [args.toCommit.getD ""])
   else []) ++
  (match args.files with
   | some fs => if 0 < fs.length then "--" :: fs else []
   | none => [])

/-- The success message of `gitDiff`, chosen most-specific-first over
the supplied argument combination. -/
def diffMessage (args : DiffArgs) : String :=
  if oTruthy args.fromCommit && oTruthy args.toCommit then
    "Diff for " ++ args.fromCommit.getD "" ++
      (if args.useThreeDotRange then "..." else "..") ++ args.toCommit.getD ""
  else if oTruthy args.fromCommit then
    "Diff from " ++ args.fromCommit.getD "" ++ " to working tree"
  else if oTruthy args.toCommit then
    "Diff to " ++ args.toCommit.getD ""
  else if args.cached then "Diff for staged changes"
  else
    "Diff for " ++
      (match args.files with
       | some fs => if fs.length != 0 then toString fs.length else "all"
       | none => "all") ++ " file(s)"

/-- Per-file mapping in the diff summary payload: absent counters
become `0` (`'changes' in f ? f.changes : 0`). -/
def diffFileMap (f : GitDiffFileRaw) : GitDiffFileInfo :=
  { file := f.file
    changes := f.changes.getD 0
    insertions := f.insertions.getD 0
    deletions := f.deletions.getD 0
    binary := f.binary }

def gitDiffBody (p : GitProvider) (cwd : String) (args : DiffArgs) :
    OpResult (String × Option GitData) :=
  match getGitM p cwd args.repoPath true with
  | (.error m, t) => (.error m, t)
  | (.ok _, t) =>
    let dArgs := diffArgsFn args
    match p.diff dArgs with
    | .error m => (.error m, t ++ [.diff dArgs])
    | .ok dTxt =>
      let sArgs := dArgs.filter (fun a => !(a == "--"))
      match p.diffSummary sArgs with
      | .error m => (.error m, t ++ [.diff dArgs, .diffSummary sArgs])
      | .ok s =>
          (.ok (diffMessage args,
            some (.diffPayload
              { files := s.files.map diffFileMap
                insertions := s.insertions
                deletions := s.deletions
                changed := s.changed } dTxt)),
            t ++ [.diff dArgs, .diffSummary sArgs])

def gitDiff (p : GitProvider) (cwd : String) (args : DiffArgs) :
    GitOperationResponse × List GitCall :=
  runOp "Failed to get diff: " (gitDiffBody p cwd args)

def gitAddBody (p : GitProvider) (cwd : String) (args : AddArgs) :
    OpResult (String × Option GitData) :=
  match getGitM p cwd args.repoPath true with
  | (.error m, t) => (.error m, t)
  | (.ok _, t) =>
    match p.add args.files with
    | .error m => (.error m, t ++ [.add args.files])
    | .ok _ =>
        (.ok ("Staged " ++ toString args.files.length ++ " file(s): " ++
          String.intercalate ", " args.files, none), t ++ [.add args.files])

def gitAdd (p : GitProvider) (cwd : String) (args : AddArgs) :
    GitOperationResponse × List GitCall :=
  runOp "Failed to stage files: " (gitAddBody p cwd args)

/-- The else-branch of `gitReset`: reset to a commit with a mode. -/
def gitResetToCommit (p : GitProvider) (t : List GitCall) (args : ResetArgs) :
    OpResult (String × Option GitData) :=
  let mode := oGet args.mode "mixed"
  let target := oGet args.commit "HEAD"
  match p.reset ["--" ++ mode, target] with
  | .error m => (.error m, t ++ [.reset ["--" ++ mode, target]])
  | .ok _ =>
      (.ok ("Reset to " ++ target ++ " (" ++ mode ++ " mode)", none),
        t ++ [.reset ["--" ++ mode, target]])

def gitResetBody (p : GitProvider) (cwd : String) (args : ResetArgs) :
    OpResult (String × Option GitData) :=
  match getGitM p cwd args.repoPath true with
  | (.error m, t) => (.error m, t)
  | (.ok _, t) =>
    match args.files with
    | some fs =>
      if 0 < fs.length then
        let ref := oGet args.commit "HEAD"
        match p.reset (ref :: fs) with
        | .error m => (.error m, t ++ [.reset (ref :: fs)])
        | .ok _ =>
            (.ok ("Unstaged " ++ toString fs.length ++ " file(s): " ++
              String.intercalate ", " fs, none), t ++ [.reset (ref :: fs)])
      else gitResetToCommit p t args
    | none => gitResetToCommit p t args

def gitReset (p : GitProvider) (cwd : String) (args : ResetArgs) :
    GitOperationResponse × List GitCall :=
  runOp "Failed to reset: " (gitResetBody p cwd args)

def gitRestoreBody (p : GitProvider) (cwd : String) (args : RestoreArgs) :
    OpResult (String × Option GitData) :=
  match getGitM p cwd args.repoPath true with
  | (.error m, t) => (.error m, t)
  | (.ok _, t) =>
    let rawArgs := "restore" :: (if args.staged then "--staged" :: args.files else args.files)
    match p.raw rawArgs with
    | .error m => (.error m, t ++ [.raw rawArgs])
    | .ok _ =>
        (.ok ((if args.staged then
            "Restored " ++ toString args.files.length ++ " file(s) from staging"
          else
            "Restored " ++ toString args.files.length ++ " file(s) from HEAD"), none),
          t ++ [.raw rawArgs])

def gitRestore (p : GitProvider) (cwd : String) (args : RestoreArgs) :
    GitOperationResponse × List GitCall :=
  runOp "Failed to restore files: " (gitRestoreBody p cwd args)

/-! ## Commit operations (src/git-tools/commit-operations.ts) -/

/-- The options bag built by `gitCommit`: `--amend` set iff `amend` is
truthy. -/
def commitOptionsFn (amend : Bool) : GitCommitOptions :=
  { amendFlag := amend }

/-- The shared tail of `gitCommit`: the commit primitive and the
success envelope (`data.commit` and `data.summary` from the provider's
result). -/
def gitCommitFinish (p : GitProvider) (t : List GitCall) (args : CommitArgs) :
    OpResult (String × Option GitData) :=
  let opts := commitOptionsFn args.amend
  match p.commit args.message none opts with
  | .error m => (.error m, t ++ [.commit args.message none opts])
  | .ok r =>
      (.ok ("Committed changes: " ++ r.commit,
        some (.commitData r.commit r.summary)), t ++ [.commit args.message none opts])

def gitCommitBody (p : GitProvider) (cwd : String) (args : CommitArgs) :
    OpResult (String × Option GitData) :=
  match getGitM p cwd args.repoPath true with
  | (.error m, t) => (.error m, t)
  | (.ok _, t) =>
    match args.files with
    | some fs =>
      if 0 < fs.length then
        match p.add fs with
        | .error m => (.error m, t ++ [.add fs])
        | .ok _ => gitCommitFinish p (t ++ [.add fs]) args
      else gitCommitFinish p t args
    | none => gitCommitFinish p t args

def gitCommit (p : GitProvider) (cwd : String) (args : CommitArgs) :
    GitOperationResponse × List GitCall :=
  runOp "Failed to commit: " (gitCommitBody p cwd args)

/-- The options bag built by `gitLog`: `maxCount` and `file` are copied
only when truthy (`if (args.maxCount)`, `if (args.file)`), so `0` and
`""` are treated as absent. -/
def logOptionsFn (args : LogArgs) : GitLogOptions :=
  { maxCount := match args.maxCount with
      | some c => if c != 0 then some c else none
      | none => none
    file := match args.file with
      | some s => if s != "" then some s else none
      | none => none }

/-- The commit projection of `gitLog`: keeps hash, date, message,
author_name and author_email; the `body` and `refs` fields of the
provider's commits have no counterpart in the result type. -/
def projCommit (c : GitCommit) : CommitInfo :=
  { hash := c.hash
    date := c.date
    message := c.message
    author_name := c.author_name
    author_email := c.author_email }

def gitLogBody (p : GitProvider) (cwd : String) (args : LogArgs) :
    OpResult (String × Option GitData) :=
  match getGitM p cwd args.repoPath true with
  | (.error m, t) => (.error m, t)
  | (.ok _, t) =>
    let opts := logOptionsFn args
    match p.log opts with
    | .error m => (.error m, t ++ [.log opts])
    | .ok lr =>
        (.ok ("Retrieved " ++ toString (lr.all.map projCommit).length ++ " commit(s)",
          some (.commits (lr.all.map projCommit))), t ++ [.log opts])

def gitLog (p : GitProvider) (cwd : String) (args : LogArgs) :
    GitOperationResponse × List GitCall :=
  runOp "Failed to get log: " (gitLogBody p cwd args)

def gitShowBody (p : GitProvider) (cwd : String) (args : ShowArgs) :
    OpResult (String × Option GitData) :=
  match getGitM p cwd args.repoPath true with
  | (.error m, t) => (.error m, t)
  | (.ok _, t) =>
    let ref := oGet args.ref "HEAD"
    match p.showText [ref] with
    | .error m => (.error m, t ++ [.showCall [ref]])
    | .ok s =>
        (.ok ("Details for " ++ ref, some (.text s)), t ++ [.showCall [ref]])

def gitShow (p : GitProvider) (cwd : String) (args : ShowArgs) :
    GitOperationResponse × List GitCall :=
  runOp "Failed to show commit: " (gitShowBody p cwd args)

/-! ## Advanced operations (src/git-tools/advanced-operations.ts) -/

def gitRebaseBody (p : GitProvider) (cwd : String) (args : RebaseArgs) :
    OpResult (String × Option GitData) :=
  match getGitM p cwd args.repoPath true with
  | (.error m, t) => (.error m, t)
  | (.ok _, t) =>
    let rebaseArgs := if args.interactive then ["-i", args.branch] else [args.branch]
    match p.rebase rebaseArgs with
    | .error m => (.error m, t ++ [.rebase rebaseArgs])
    | .ok _ =>
        (.ok ("Rebased onto \x27" ++ args.branch ++ "\x27", none),
          t ++ [.rebase rebaseArgs])

def gitRebase (p : GitProvider) (cwd : String) (args : RebaseArgs) :
    GitOperationResponse × List GitCall :=
  runOp "Failed to rebase: " (gitRebaseBody p cwd args)

/-- The stash-push argument vector: `push`, then `-u` iff untracked
files are included, then `-m <message>` iff a message is given. -/
def stashPushArgs (args : StashArgs) : List String :=
  ["push"] ++ (if args.includeUntracked then ["-u"] else []) ++
    (if oTruthy args.message then ["-m", args.message.getD ""] else [])

def gitStashBody (p : GitProvider) (cwd : String) (args : StashArgs) :
    OpResult (String × Option GitData) :=
  match getGitM p cwd args.repoPath true with
  | (.error m, t) => (.error m, t)
  | (.ok _, t) =>
    match p.stash (stashPushArgs args) with
    | .error m => (.error m, t ++ [.stash (stashPushArgs args)])
    | .ok _ =>
        (.ok ((if oTruthy args.message then
            "Stashed changes: " ++ args.message.getD ""
          else "Stashed changes"), none), t ++ [.stash (stashPushArgs args)])

def gitStash (p : GitProvider) (cwd : String) (args : StashArgs) :
    GitOperationResponse × List GitCall :=
  runOp "Failed to stash: " (gitStashBody p cwd args)

/-- The stash-pop argument vector: `pop`, then `stash@{<index>}` iff
`index !== undefined` (so an explicit index 0 is honoured). -/
def stashPopArgsFn (args : StashPopArgs) : List String :=
  ["pop"] ++ (match args.index with
    | some i => ["stash@\x7b" ++ toString i ++ "\x7d"]
    | none => [])

def gitStashPopBody (p : GitProvider) (cwd : String) (args : StashPopArgs) :
    OpResult (String × Option GitData) :=
  match getGitM p cwd args.repoPath true with
  | (.error m, t) => (.error m, t)
  | (.ok _, t) =>
    match p.stash (stashPopArgsFn args) with
    | .error m => (.error m, t ++ [.stash (stashPopArgsFn args)])
    | .ok _ =>
        (.ok ((match args.index with
          | some i => "Applied stash@\x7b" ++ toString i ++ "\x7d"
          | none => "Applied most recent stash"), none),
          t ++ [.stash (stashPopArgsFn args)])

def gitStashPop (p : GitProvider) (cwd : String) (args : StashPopArgs) :
    GitOperationResponse × List GitCall :=
  runOp "Failed to pop stash: " (gitStashPopBody p cwd args)

def gitStashListBody (p : GitProvider) (cwd : String) (args : RepoArg) :
    OpResult (String × Option GitData) :=
  match getGitM p cwd args.repoPath true with
  | (.error m, t) => (.error m, t)
  | (.ok _, t) =>
    match p.stashList with
    | .error m => (.error m, t ++ [.stashList])
    | .ok sl =>
        (.ok ("Found " ++ toString sl.total ++ " stash(es)",
          some (.stashes sl.all)), t ++ [.stashList])

def gitStashList (p : GitProvider) (cwd : String) (args : RepoArg) :
    GitOperationResponse × List GitCall :=
  runOp "Failed to list stashes: " (gitStashListBody p cwd args)

def gitCherryPickBody (p : GitProvider) (cwd : String) (args : CherryPickArgs) :
    OpResult (String × Option GitData) :=
  match getGitM p cwd args.repoPath true with
  | (.error m, t) => (.error m, t)
  | (.ok _, t) =>
    match p.raw ["cherry-pick", args.commit] with
    | .error m => (.error m, t ++ [.raw ["cherry-pick", args.commit]])
    | .ok _ =>
        (.ok ("Cherry-picked commit " ++ args.commit, none),
          t ++ [.raw ["cherry-pick", args.commit]])

def gitCherryPick (p : GitProvider) (cwd : String) (args : CherryPickArgs) :
    GitOperationResponse × List GitCall :=
  runOp "Failed to cherry-pick: " (gitCherryPickBody p cwd args)

/-! ## Remote operations (src/git-tools/remote-operations.ts) -/

def gitRemoteListBody (p : GitProvider) (cwd : String) (args : RepoArg) :
    OpResult (String × Option GitData) :=
  match getGitM p cwd args.repoPath true with
  | (.error m, t) => (.error m, t)
  | (.ok _, t) =>
    match p.getRemotes true with
    | .error m => (.error m, t ++ [.getRemotes true])
    | .ok rs =>
      let mapped := rs.map (fun r =>
        ({ name := r.name, refs := { fetch := r.refs.fetch, push := r.refs.push } } : GitRemote))
      (.ok ("Found " ++ toString mapped.length ++ " remote(s)",
        some (.remotes mapped)), t ++ [.getRemotes true])

def gitRemoteList (p : GitProvider) (cwd : String) (args : RepoArg) :
    GitOperationResponse × List GitCall :=
  runOp "Failed to list remotes: " (gitRemoteListBody p cwd args)

def gitRemoteAddBody (p : GitProvider) (cwd : String) (args : RemoteAddArgs) :
    OpResult (String × Option GitData) :=
  match getGitM p cwd args.repoPath true with
  | (.error m, t) => (.error m, t)
  | (.ok _, t) =>
    match p.addRemote args.name args.url with
    | .error m => (.error m, t ++ [.addRemote args.name args.url])
    | .ok _ =>
        (.ok ("Added remote \x27" ++ args.name ++ "\x27 (" ++ args.url ++ ")", none),
          t ++ [.addRemote args.name args.url])

def gitRemoteAdd (p : GitProvider) (cwd : String) (args : RemoteAddArgs) :
    GitOperationResponse × List GitCall :=
  runOp "Failed to add remote: " (gitRemoteAddBody p cwd args)

/-- The success message of `gitFetch`. -/
def fetchMessage (args : FetchArgs) : String :=
  if oTruthy args.remote then
    "Fetched from \x27" ++ args.remote.getD "" ++ "\x27" ++
      (if oTruthy args.branch then " (" ++ args.branch.getD "" ++ ")" else "")
  else "Fetched from all remotes"

def gitFetchBody (p : GitProvider) (cwd : String) (args : FetchArgs) :
    OpResult (String × Option GitData) :=
  match getGitM p cwd args.repoPath true with
  | (.error m, t) => (.error m, t)
  | (.ok _, t) =>
    if oTruthy args.remote && oTruthy args.branch then
      match p.fetch args.remote args.branch with
      | .error m => (.error m, t ++ [.fetch args.remote args.branch])
      | .ok _ => (.ok (fetchMessage args, none), t ++ [.fetch args.remote args.branch])
    else if oTruthy args.remote then
      match p.fetch args.remote none with
      | .error m => (.error m, t ++ [.fetch args.remote none])
      | .ok _ => (.ok (fetchMessage args, none), t ++ [.fetch args.remote none])
    else
      match p.fetch none none with
      | .error m => (.error m, t ++ [.fetch none none])
      | .ok _ => (.ok (fetchMessage args, none), t ++ [.fetch none none])

def gitFetch (p : GitProvider) (cwd : String) (args : FetchArgs) :
    GitOperationResponse × List GitCall :=
  runOp "Failed to fetch: " (gitFetchBody p cwd args)

def gitPullBody (p : GitProvider) (cwd : String) (args : PullArgs) :
    OpResult (String × Option GitData) :=
  match getGitM p cwd args.repoPath true with
  | (.error m, t) => (.error m, t)
  | (.ok _, t) =>
    let opts : GitPullOptions := { rebaseFlag := args.rebase }
    match p.pull args.remote args.branch opts with
    | .error m => (.error m, t ++ [.pull args.remote args.branch opts])
    | .ok _ =>
        (.ok ("Pulled from " ++ oGet args.remote "origin" ++
          (if oTruthy args.branch then "/" ++ args.branch.getD "" else ""), none),
          t ++ [.pull args.remote args.branch opts])

def gitPull (p : GitProvider) (cwd : String) (args : PullArgs) :
    GitOperationResponse × List GitCall :=
  runOp "Failed to pull: " (gitPullBody p cwd args)

/-- The push option vector: `--force` then `--set-upstream`, each
present iff its flag is set, in that fixed order. -/
def pushOptionsFn (args : PushArgs) : List String :=
  (if args.force then ["--force"] else []) ++
    (if args.setUpstream then ["--set-upstream"] else [])

def gitPushBody (p : GitProvider) (cwd : String) (args : PushArgs) :
    OpResult (String × Option GitData) :=
  match getGitM p cwd args.repoPath true with
  | (.error m, t) => (.error m, t)
  | (.ok _, t) =>
    match p.push args.remote args.branch (pushOptionsFn args) with
    | .error m => (.error m, t ++ [.push args.remote args.branch (pushOptionsFn args)])
    | .ok _ =>
        (.ok ("Pushed to " ++ oGet args.remote "origin" ++
          (if oTruthy args.branch then "/" ++ args.branch.getD "" else ""), none),
          t ++ [.push args.remote args.branch (pushOptionsFn args)])

def gitPush (p : GitProvider) (cwd : String) (args : PushArgs) :
    GitOperationResponse × List GitCall :=
  runOp "Failed to push: " (gitPushBody p cwd args)

/-! ## Tool catalog and dispatcher (src/index.ts) -/

/-- The optional behaviour annotation flags of a tool descriptor. -/
structure ToolAnn where
  readOnly : Bool := false
  dangerous : Bool := false
  requiresConfirmation : Bool := false
deriving Repr, DecidableEq

/-- One entry of the static tool catalog: name, description, the
parameter names of `inputSchema.properties` (in declaration order), the
`required` list, and the annotation flags. -/
structure ToolDescriptor where
  name : String
  description : String
  params : List String
  required : List String := []
  ann : ToolAnn := {}
deriving Repr, DecidableEq

/-- The static tool catalog declared in `src/index.ts`. -/
def tools : List ToolDescriptor := [
  { name := "git_status"
    description := "Show the working tree status including modified, staged, and untracked files"
    params := ["repoPath"], ann := { readOnly := true } },
  { name := "git_init"
    description := "Initialize a new git repository"
    params := ["repoPath"] },
  { name := "git_clone"
    description := "Clone a repository from a URL"
    params := ["url", "targetPath", "repoPath"], required := ["url"] },
  { name := "git_branch_list"
    description := "List all branches in the repository"
    params := ["repoPath"], ann := { readOnly := true } },
  { name := "git_branch_create"
    description := "Create a new branch"
    params := ["branchName", "repoPath"], required := ["branchName"] },
  { name := "git_branch_delete"
    description := "Delete a branch"
    params := ["branchName", "force", "repoPath"], required := ["branchName"]
    ann := { dangerous := true, requiresConfirmation := true } },
  { name := "git_checkout"
    description := "Switch branches or restore working tree files"
    params := ["ref", "createBranch", "repoPath"], required := ["ref"] },
  { name := "git_merge"
    description := "Merge a branch into the current branch"
    params := ["branch", "noFastForward", "repoPath"], required := ["branch"] },
  { name := "git_diff"
    description := "Show changes between commits, commit and working tree, etc. Supports commit ranges like HEAD...origin/master"
    params := ["files", "cached", "fromCommit", "toCommit", "useThreeDotRange", "repoPath"]
    ann := { readOnly := true } },
  { name := "git_add"
    description := "Add file contents to the staging area"
    params := ["files", "repoPath"], required := ["files"] },
  { name := "git_reset"
    description := "Unstage files or reset current HEAD to specified state"
    params := ["files", "mode", "commit", "repoPath"]
    ann := { dangerous := true, requiresConfirmation := true } },
  { name := "git_restore"
    description := "Restore working tree files"
    params := ["files", "staged", "repoPath"], required := ["files"]
    ann := { dangerous := true, requiresConfirmation := true } },
  { name := "git_commit"
    description := "Record changes to the repository"
    params := ["message", "files", "amend", "repoPath"], required := ["message"] },
  { name := "git_log"
    description := "Show commit logs"
    params := ["maxCount", "file", "repoPath"], ann := { readOnly := true } },
  { name := "git_show"
    description := "Show details of a commit"
    params := ["ref", "repoPath"], ann := { readOnly := true } },
  { name := "git_rebase"
    description := "Reapply commits on top of another base tip"
    params := ["branch", "interactive", "repoPath"], required := ["branch"]
    ann := { dangerous := true, requiresConfirmation := true } },
  { name := "git_stash"
    description := "Stash the changes in a dirty working directory"
    params := ["message", "includeUntracked", "repoPath"] },
  { name := "git_stash_pop"
    description := "Apply stashed changes and remove them from stash list"
    params := ["index", "repoPath"] },
  { name := "git_stash_list"
    description := "List all stashed changes"
    params := ["repoPath"], ann := { readOnly := true } },
  { name := "git_cherry_pick"
    description := "Apply the changes introduced by an existing commit"
    params := ["commit", "repoPath"], required := ["commit"] },
  { name := "git_remote_list"
    description := "List all configured remotes"
    params := ["repoPath"], ann := { readOnly := true } },
  { name := "git_remote_add"
    description := "Add a new remote"
    params := ["name", "url", "repoPath"], required := ["name", "url"] },
  { name := "git_fetch"
    description := "Download objects and refs from another repository"
    params := ["remote", "branch", "repoPath"], ann := { readOnly := true } },
  { name := "git_pull"
    description := "Fetch from and integrate with another repository or local branch"
    params := ["remote", "branch", "rebase", "repoPath"] },
  { name := "git_push"
    description := "Update remote refs along with associated objects"
    params := ["remote", "branch", "force", "setUpstream", "repoPath"]
    ann := { dangerous := true, requiresConfirmation := true } }
]

/-- The keys of the `toolHandlers` lookup table, in declaration order. -/
def toolHandlerNames : List String :=
  ["git_status", "git_init", "git_clone",
   "git_branch_list", "git_branch_create", "git_branch_delete", "git_checkout", "git_merge",
   "git_diff", "git_add", "git_reset", "git_restore",
   "git_commit", "git_log", "git_show",
   "git_rebase", "git_stash", "git_stash_pop", "git_stash_list", "git_cherry_pick",
   "git_remote_list", "git_remote_add", "git_fetch", "git_pull", "git_push"]

/-- The `required` list of the catalog entry with the given name
(empty when the name is absent or the entry declares none). -/
def requiredOf (n : String) : List String :=
  ((tools.find? (fun t => t.name == n)).map (fun t => t.required)).getD []

/-- The dispatcher's lookup branch (the `CallToolRequestSchema`
handler): a known name forwards the handler's envelope, an unknown name
yields the `Unknown tool: <name>` envelope with no data. -/
def dispatchReply (name : String) (handlerReply : GitOperationResponse) :
    GitOperationResponse :=
  if toolHandlerNames.contains name then handlerReply
  else { success := false, message := "Unknown tool: " ++ name, data := none }

/-! ## Concrete providers (mirroring the defaults of
src/__tests__/utils/mock-git-provider.ts) -/

def mockStatus : GitStatusR :=
  { modified := [], created := [], deleted := [], renamed := [], conflicted := []
    not_added := [], staged := [], current := some "main", tracking := some "origin/main"
    ahead := 0, behind := 0, isClean := true }

def mockBranches : GitBranchSummary :=
  { detached := false, current := "main", all := ["main"]
    branches := [("main", { name := "main", commit := "abc123", label := "main", current := true })] }

def mockCommitRec : GitCommit :=
  { hash := "abc123", date := "2024-01-01", message := "Initial commit"
    author_name := "Test User", author_email := "test@example.com", body := "", refs := "" }

def mockDiffSummary : GitDiffSummaryRaw :=
  { files := [{ file := "file.txt", changes := some 1, insertions := some 1
                deletions := some 0, binary := false }]
    insertions := 1, deletions := 0, changed := 1 }

def mockCommitResult : GitCommitResult :=
  { commit := "def456", branch := "main", author := some "Test User <test@example.com>"
    summary := { changes := 1, insertions := 1, deletions := 0 } }

def mockMergeResult : GitMergeResult :=
  { merges := ["feature-branch"], conflicts := [], result := "success"
    summary := { changes := 1, insertions := 1, deletions := 0 } }

def mockRemotes : List GitRemote :=
  [{ name := "origin"
     refs := { fetch := "https://github.com/user/repo.git"
               push := "https://github.com/user/repo.git" } }]

/-- A provider on which every primitive succeeds, returning the mock
data of the test suite's `MockGitProvider`. -/
def providerOK : GitProvider :=
  { checkIsRepo := .ok true
    status := .ok mockStatus
    initRepo := .ok ()
    clone := fun _ _ => .ok ()
    branch := .ok mockBranches
    branchMutate := fun _ => .ok ()
    checkout := fun _ => .ok ()
    checkoutBranch := fun _ _ => .ok ()
    merge := fun _ => .ok mockMergeResult
    diff := fun _ => .ok "diff --git a/file.txt b/file.txt\n+added line"
    diffSummary := fun _ => .ok mockDiffSummary
    add := fun _ => .ok ()
    reset := fun _ => .ok ()
    raw := fun _ => .ok ""
    commit := fun _ _ _ => .ok mockCommitResult
    log := fun _ => .ok { all := [mockCommitRec], total := 1, latest := some mockCommitRec }
    showText := fun _ => .ok "commit abc123\nAuthor: Test User\nDate: 2024-01-01\n\nInitial commit"
    rebase := fun _ => .ok ()
    stash := fun _ => .ok ()
    stashList := .ok { all := [], total := 0, latest := none }
    getRemotes := fun _ => .ok mockRemotes
    addRemote := fun _ _ => .ok ()
    fetch := fun _ _ => .ok ()
    pull := fun _ _ _ => .ok ()
    push := fun _ _ _ => .ok () }

/-- A provider whose repository check reports a non-repository target. -/
def providerNotRepo : GitProvider :=
  { providerOK with checkIsRepo := .ok false }

/-- A provider whose branch-query primitive faults. -/
def providerBranchErr : GitProvider :=
  { providerOK with branch := .error "Mock error for branch" }

/-- A provider whose push primitive faults. -/
def providerPushErr : GitProvider :=
  { providerOK with push := fun _ _ _ => .error "Mock error for push" }

/-! ## Helper lemmas about the shared operation skeleton -/

theorem runOp_error (pre : String) (b : OpResult (String × Option GitData)) (m : String)
    (h : b.1 = .error m) : (runOp pre b).1 = mkFail pre m := by
  rcases b with ⟨e, t⟩
  cases e with
  | error m2 =>
      simp only [Prod.fst] at h
      cases h
      rfl
  | ok v => simp at h

theorem runOp_shape (pre : String) (b : OpResult (String × Option GitData))
    (h : (runOp pre b).1.success = false) :
    (runOp pre b).1.data = none ∧ ∃ m, (runOp pre b).1.message = pre ++ m := by
  rcases b with ⟨e, t⟩
  cases e with
  | error m => exact ⟨rfl, m, rfl⟩
  | ok v =>
      rcases v with ⟨msg, d⟩
      simp [runOp] at h

theorem getGitM_ok (p : GitProvider) (cwd : String) (rp : Option String)
    (h : p.checkIsRepo = .ok true) :
    getGitM p cwd rp true = (.ok (), [.checkIsRepo]) := by
  simp [getGitM, h]

theorem getGitM_notRepo (p : GitProvider) (cwd : String) (rp : Option String)
    (h : p.checkIsRepo = .ok false) :
    getGitM p cwd rp true =
      (.error ("Not a git repository: " ++ basePath cwd rp), [.checkIsRepo]) := by
  simp [getGitM, h]

/-! ## Claim C1 -/

/-- Claim C1, counterexample: the static tool catalog declared in
src/index.ts contains exactly 25 descriptors, not the 29 the claim
states. -/
theorem c1_catalog_count_counterexample : tools.length = 25 ∧ tools.length ≠ 29 := by
  decide

/-- Claim C1, amended: the static tool catalog contains exactly 25 tool
descriptors, one per operation of the handler table (same names in the
same order); each descriptor's required parameters are among its
declared parameters, and in particular git_clone requires url,
git_commit requires message, and git_branch_create requires branchName. -/
theorem c1_catalog_amended :
    tools.length = 25 ∧
    tools.map (fun t => t.name) = toolHandlerNames ∧
    (tools.all (fun t => t.required.all (fun r => t.params.contains r))) = true ∧
    requiredOf "git_clone" = ["url"] ∧
    requiredOf "git_commit" = ["message"] ∧
    requiredOf "git_branch_create" = ["branchName"] := by
  decide

/-! ## Claim C2 -/

/-- Claim C2, counterexample: the dispatcher's reply for an unknown
tool name is a produced envelope with success false and no data whose
message is "Unknown tool: <name>", which does not begin with the fixed
"Failed to" prefix the claim requires of every failure envelope. -/
theorem c2_failure_envelope_counterexample :
    (dispatchReply "does_not_exist" (mkFail "Failed to get status: " "boom")).success = false ∧
    (dispatchReply "does_not_exist" (mkFail "Failed to get status: " "boom")).data = none ∧
    (dispatchReply "does_not_exist" (mkFail "Failed to get status: " "boom")).message =
      "Unknown tool: does_not_exist" ∧
    (dispatchReply "does_not_exist" (mkFail "Failed to get status: " "boom")).message.take 9 ≠
      "Failed to" := by
  decide

/-- Claim C2, amended: for every one of the 25 operations,
success = false implies the data field is absent and the message is the
operation's fixed "Failed to ..." prefix followed by the fault message;
the dispatcher's reply for an unknown tool name instead has
success = false, no data, and message "Unknown tool: <name>". -/
theorem c2_failure_envelope_amended :
    (∀ p cwd args, (gitStatus p cwd args).1.success = false →
      (gitStatus p cwd args).1.data = none ∧
      ∃ m, (gitStatus p cwd args).1.message = "Failed to get status: " ++ m) ∧
    (∀ p cwd args, (gitInit p cwd args).1.success = false →
      (gitInit p cwd args).1.data = none ∧
      ∃ m, (gitInit p cwd args).1.message = "Failed to initialize repository: " ++ m) ∧
    (∀ p cwd args, (gitClone p cwd args).1.success = false →
      (gitClone p cwd args).1.data = none ∧
      ∃ m, (gitClone p cwd args).1.message = "Failed to clone repository: " ++ m) ∧
    (∀ p cwd args, (gitBranchList p cwd args).1.success = false →
      (gitBranchList p cwd args).1.data = none ∧
      ∃ m, (gitBranchList p cwd args).1.message = "Failed to list branches: " ++ m) ∧
    (∀ p cwd args, (gitBranchCreate p cwd args).1.success = false →
      (gitBranchCreate p cwd args).1.data = none ∧
      ∃ m, (gitBranchCreate p cwd args).1.message = "Failed to create branch: " ++ m) ∧
    (∀ p cwd args, (gitBranchDelete p cwd args).1.success = false →
      (gitBranchDelete p cwd args).1.data = none ∧
      ∃ m, (gitBranchDelete p cwd args).1.message = "Failed to delete branch: " ++ m) ∧
    (∀ p cwd args, (gitCheckout p cwd args).1.success = false →
      (gitCheckout p cwd args).1.data = none ∧
      ∃ m, (gitCheckout p cwd args).1.message = "Failed to checkout: " ++ m) ∧
    (∀ p cwd args, (gitMerge p cwd args).1.success = false →
      (gitMerge p cwd args).1.data = none ∧
      ∃ m, (gitMerge p cwd args).1.message = "Failed to merge: " ++ m) ∧
    (∀ p cwd args, (gitDiff p cwd args).1.success = false →
      (gitDiff p cwd args).1.data = none ∧
      ∃ m, (gitDiff p cwd args).1.message = "Failed to get diff: " ++ m) ∧
    (∀ p cwd args, (gitAdd p cwd args).1.success = false →
      (gitAdd p cwd args).1.data = none ∧
      ∃ m, (gitAdd p cwd args).1.message = "Failed to stage files: " ++ m) ∧
    (∀ p cwd args, (gitReset p cwd args).1.success = false →
      (gitReset p cwd args).1.data = none ∧
      ∃ m, (gitReset p cwd args).1.message = "Failed to reset: " ++ m) ∧
    (∀ p cwd args, (gitRestore p cwd args).1.success = false →
      (gitRestore p cwd args).1.data = none ∧
      ∃ m, (gitRestore p cwd args).1.message = "Failed to restore files: " ++ m) ∧
    (∀ p cwd args, (gitCommit p cwd args).1.success = false →
      (gitCommit p cwd args).1.data = none ∧
      ∃ m, (gitCommit p cwd args).1.message = "Failed to commit: " ++ m) ∧
    (∀ p cwd args, (gitLog p cwd args).1.success = false →
      (gitLog p cwd args).1.data = none ∧
      ∃ m, (gitLog p cwd args).1.message = "Failed to get log: " ++ m) ∧
    (∀ p cwd args, (gitShow p cwd args).1.success = false →
      (gitShow p cwd args).1.data = none ∧
      ∃ m, (gitShow p cwd args).1.message = "Failed to show commit: " ++ m) ∧
    (∀ p cwd args, (gitRebase p cwd args).1.success = false →
      (gitRebase p cwd args).1.data = none ∧
      ∃ m, (gitRebase p cwd args).1.message = "Failed to rebase: " ++ m) ∧
    (∀ p cwd args, (gitStash p cwd args).1.success = false →
      (gitStash p cwd args).1.data = none ∧
      ∃ m, (gitStash p cwd args).1.message = "Failed to stash: " ++ m) ∧
    (∀ p cwd args, (gitStashPop p cwd args).1.success = false →
      (gitStashPop p cwd args).1.data = none ∧
      ∃ m, (gitStashPop p cwd args).1.message = "Failed to pop stash: " ++ m) ∧
    (∀ p cwd args, (gitStashList p cwd args).1.success = false →
      (gitStashList p cwd args).1.data = none ∧
      ∃ m, (gitStashList p cwd args).1.message = "Failed to list stashes: " ++ m) ∧
    (∀ p cwd args, (gitCherryPick p cwd args).1.success = false →
      (gitCherryPick p cwd args).1.data = none ∧
      ∃ m, (gitCherryPick p cwd args).1.message = "Failed to cherry-pick: " ++ m) ∧
    (∀ p cwd args, (gitRemoteList p cwd args).1.success = false →
      (gitRemoteList p cwd args).1.data = none ∧
      ∃ m, (gitRemoteList p cwd args).1.message = "Failed to list remotes: " ++ m) ∧
    (∀ p cwd args, (gitRemoteAdd p cwd args).1.success = false →
      (gitRemoteAdd p cwd args).1.data = none ∧
      ∃ m, (gitRemoteAdd p cwd args).1.message = "Failed to add remote: " ++ m) ∧
    (∀ p cwd args, (gitFetch p cwd args).1.success = false →
      (gitFetch p cwd args).1.data = none ∧
      ∃ m, (gitFetch p cwd args).1.message = "Failed to fetch: " ++ m) ∧
    (∀ p cwd args, (gitPull p cwd args).1.success = false →
      (gitPull p cwd args).1.data = none ∧
      ∃ m, (gitPull p cwd args).1.message = "Failed to pull: " ++ m) ∧
    (∀ p cwd args, (gitPush p cwd args).1.success = false →
      (gitPush p cwd args).1.data = none ∧
      ∃ m, (gitPush p cwd args).1.message = "Failed to push: " ++ m) ∧
    (∀ n r, toolHandlerNames.contains n = false →
      dispatchReply n r =
        { success := false, message := "Unknown tool: " ++ n, data := none }) := by
  refine ⟨?_, ?_, ?_, ?_, ?_, ?_, ?_, ?_, ?_, ?_, ?_, ?_, ?_, ?_, ?_, ?_, ?_, ?_, ?_,
    ?_, ?_, ?_, ?_, ?_, ?_, ?_⟩
  · exact fun p cwd args h => runOp_shape _ _ h
  · exact fun p cwd args h => runOp_shape _ _ h
  · exact fun p cwd args h => runOp_shape _ _ h
  · exact fun p cwd args h => runOp_shape _ _ h
  · exact fun p cwd args h => runOp_shape _ _ h
  · exact fun p cwd args h => runOp_shape _ _ h
  · exact fun p cwd args h => runOp_shape _ _ h
  · exact fun p cwd args h => runOp_shape _ _ h
  · exact fun p cwd args h => runOp_shape _ _ h
  · exact fun p cwd args h => runOp_shape _ _ h
  · exact fun p cwd args h => runOp_shape _ _ h
  · exact fun p cwd args h => runOp_shape _ _ h
  · exact fun p cwd args h => runOp_shape _ _ h
  · exact fun p cwd args h => runOp_shape _ _ h
  · exact fun p cwd args h => runOp_shape _ _ h
  · exact fun p cwd args h => runOp_shape _ _ h
  · exact fun p cwd args h => runOp_shape _ _ h
  · exact fun p cwd args h => runOp_shape _ _ h
  · exact fun p cwd args h => runOp_shape _ _ h
  · exact fun p cwd args h => runOp_shape _ _ h
  · exact fun p cwd args h => runOp_shape _ _ h
  · exact fun p cwd args h => runOp_shape _ _ h
  · exact fun p cwd args h => runOp_shape _ _ h
  · exact fun p cwd args h => runOp_shape _ _ h
  · exact fun p cwd args h => runOp_shape _ _ h
  · intro n r h
    have h2 : ¬ n ∈ toolHandlerNames := by simpa using h
    simp [dispatchReply, h2]

/-- Claim C2, witness: the amended theorem applied to a provider whose
branch primitive faults. -/
theorem c2_failure_envelope_amended_witness :
    (gitBranchList providerBranchErr "/work" {}).1.data = none ∧
    ∃ m, (gitBranchList providerBranchErr "/work" {}).1.message =
      "Failed to list branches: " ++ m :=
  c2_failure_envelope_amended.2.2.2.1 providerBranchErr "/work" {} (by decide)

/-! ## Claim C3 -/

/-- Claim C3, counterexample: when the target is not a repository, the
operation's returned message is the operation's failure prefix followed
by the factory's thrown "Not a git repository: <path>" text, not
exactly "Not a git repository: <path>" as the claim states. -/
theorem c3_not_repo_counterexample :
    (gitBranchList providerNotRepo "/work" {}).1.success = false ∧
    (gitBranchList providerNotRepo "/work" {}).1.message =
      "Failed to list branches: Not a git repository: /work" ∧
    (gitBranchList providerNotRepo "/work" {}).1.message ≠
      "Not a git repository: /work" := by
  decide

/-- Claim C3, amended: for every operation whose factory is invoked
with required = true, if the repository check reports a non-repository
target the operation returns success = false with no data and message
"Failed to <action>: Not a git repository: <path-or-cwd>", and the call
trace contains only the repository check - no other provider primitive
is invoked. -/
theorem c3_not_repo_amended :
    (∀ p cwd (args : RepoArg), p.checkIsRepo = .ok false →
      gitStatus p cwd args =
        (mkFail "Failed to get status: "
          ("Not a git repository: " ++ basePath cwd args.repoPath), [.checkIsRepo])) ∧
    (∀ p cwd (args : RepoArg), p.checkIsRepo = .ok false →
      gitBranchList p cwd args =
        (mkFail "Failed to list branches: "
          ("Not a git repository: " ++ basePath cwd args.repoPath), [.checkIsRepo])) ∧
    (∀ p cwd (args : BranchCreateArgs), p.checkIsRepo = .ok false →
      gitBranchCreate p cwd args =
        (mkFail "Failed to create branch: "
          ("Not a git repository: " ++ basePath cwd args.repoPath), [.checkIsRepo])) ∧
    (∀ p cwd (args : BranchDeleteArgs), p.checkIsRepo = .ok false →
      gitBranchDelete p cwd args =
        (mkFail "Failed to delete branch: "
          ("Not a git repository: " ++ basePath cwd args.repoPath), [.checkIsRepo])) ∧
    (∀ p cwd (args : CheckoutArgs), p.checkIsRepo = .ok false →
      gitCheckout p cwd args =
        (mkFail "Failed to checkout: "
          ("Not a git repository: " ++ basePath cwd args.repoPath), [.checkIsRepo])) ∧
    (∀ p cwd (args : MergeArgs), p.checkIsRepo = .ok false →
      gitMerge p cwd args =
        (mkFail "Failed to merge: "
          ("Not a git repository: " ++ basePath cwd args.repoPath), [.checkIsRepo])) ∧
    (∀ p cwd (args : DiffArgs), p.checkIsRepo = .ok false →
      gitDiff p cwd args =
        (mkFail "Failed to get diff: "
          ("Not a git repository: " ++ basePath cwd args.repoPath), [.checkIsRepo])) ∧
    (∀ p cwd (args : AddArgs), p.checkIsRepo = .ok false →
      gitAdd p cwd args =
        (mkFail "Failed to stage files: "
          ("Not a git repository: " ++ basePath cwd args.repoPath), [.checkIsRepo])) ∧
    (∀ p cwd (args : ResetArgs), p.checkIsRepo = .ok false →
      gitReset p cwd args =
        (mkFail "Failed to reset: "
          ("Not a git repository: " ++ basePath cwd args.repoPath), [.checkIsRepo])) ∧
    (∀ p cwd (args : RestoreArgs), p.checkIsRepo = .ok false →
      gitRestore p cwd args =
        (mkFail "Failed to restore files: "
          ("Not a git repository: " ++ basePath cwd args.repoPath), [.checkIsRepo])) ∧
    (∀ p cwd (args : CommitArgs), p.checkIsRepo = .ok false →
      gitCommit p cwd args =
        (mkFail "Failed to commit: "
          ("Not a git repository: " ++ basePath cwd args.repoPath), [.checkIsRepo])) ∧
    (∀ p cwd (args : LogArgs), p.checkIsRepo = .ok false →
      gitLog p cwd args =
        (mkFail "Failed to get log: "
          ("Not a git repository: " ++ basePath cwd args.repoPath), [.checkIsRepo])) ∧
    (∀ p cwd (args : ShowArgs), p.checkIsRepo = .ok false →
      gitShow p cwd args =
        (mkFail "Failed to show commit: "
          ("Not a git repository: " ++ basePath cwd args.repoPath), [.checkIsRepo])) ∧
    (∀ p cwd (args : RebaseArgs), p.checkIsRepo = .ok false →
      gitRebase p cwd args =
        (mkFail "Failed to rebase: "
          ("Not a git repository: " ++ basePath cwd args.repoPath), [.checkIsRepo])) ∧
    (∀ p cwd (args : StashArgs), p.checkIsRepo = .ok false →
      gitStash p cwd args =
        (mkFail "Failed to stash: "
          ("Not a git repository: " ++ basePath cwd args.repoPath), [.checkIsRepo])) ∧
    (∀ p cwd (args : StashPopArgs), p.checkIsRepo = .ok false →
      gitStashPop p cwd args =
        (mkFail "Failed to pop stash: "
          ("Not a git repository: " ++ basePath cwd args.repoPath), [.checkIsRepo])) ∧
    (∀ p cwd (args : RepoArg), p.checkIsRepo = .ok false →
      gitStashList p cwd args =
        (mkFail "Failed to list stashes: "
          ("Not a git repository: " ++ basePath cwd args.repoPath), [.checkIsRepo])) ∧
    (∀ p cwd (args : CherryPickArgs), p.checkIsRepo = .ok false →
      gitCherryPick p cwd args =
        (mkFail "Failed to cherry-pick: "
          ("Not a git repository: " ++ basePath cwd args.repoPath), [.checkIsRepo])) ∧
    (∀ p cwd (args : RepoArg), p.checkIsRepo = .ok false →
      gitRemoteList p cwd args =
        (mkFail "Failed to list remotes: "
          ("Not a git repository: " ++ basePath cwd args.repoPath), [.checkIsRepo])) ∧
    (∀ p cwd (args : RemoteAddArgs), p.checkIsRepo = .ok false →
      gitRemoteAdd p cwd args =
        (mkFail "Failed to add remote: "
          ("Not a git repository: " ++ basePath cwd args.repoPath), [.checkIsRepo])) ∧
    (∀ p cwd (args : FetchArgs), p.checkIsRepo = .ok false →
      gitFetch p cwd args =
        (mkFail "Failed to fetch: "
          ("Not a git repository: " ++ basePath cwd args.repoPath), [.checkIsRepo])) ∧
    (∀ p cwd (args : PullArgs), p.checkIsRepo = .ok false →
      gitPull p cwd args =
        (mkFail "Failed to pull: "
          ("Not a git repository: " ++ basePath cwd args.repoPath), [.checkIsRepo])) ∧
    (∀ p cwd (args : PushArgs), p.checkIsRepo = .ok false →
      gitPush p cwd args =
        (mkFail "Failed to push: "
          ("Not a git repository: " ++ basePath cwd args.repoPath), [.checkIsRepo])) := by
  refine ⟨?_, ?_, ?_, ?_, ?_, ?_, ?_, ?_, ?_, ?_, ?_, ?_, ?_, ?_, ?_, ?_, ?_, ?_, ?_,
    ?_, ?_, ?_, ?_⟩
  · intro p cwd args h
    unfold gitStatus gitStatusBody
    rw [getGitM_notRepo p cwd args.repoPath h]
    rfl
  · intro p cwd args h
    unfold gitBranchList gitBranchListBody
    rw [getGitM_notRepo p cwd args.repoPath h]
    rfl
  · intro p cwd args h
    unfold gitBranchCreate gitBranchCreateBody
    rw [getGitM_notRepo p cwd args.repoPath h]
    rfl
  · intro p cwd args h
    unfold gitBranchDelete gitBranchDeleteBody
    rw [getGitM_notRepo p cwd args.repoPath h]
    rfl
  · intro p cwd args h
    unfold gitCheckout gitCheckoutBody
    rw [getGitM_notRepo p cwd args.repoPath h]
    rfl
  · intro p cwd args h
    unfold gitMerge gitMergeBody
    rw [getGitM_notRepo p cwd args.repoPath h]
    rfl
  · intro p cwd args h
    unfold gitDiff gitDiffBody
    rw [getGitM_notRepo p cwd args.repoPath h]
    rfl
  · intro p cwd args h
    unfold gitAdd gitAddBody
    rw [getGitM_notRepo p cwd args.repoPath h]
    rfl
  · intro p cwd args h
    unfold gitReset gitResetBody
    rw [getGitM_notRepo p cwd args.repoPath h]
    rfl
  · intro p cwd args h
    unfold gitRestore gitRestoreBody
    rw [getGitM_notRepo p cwd args.repoPath h]
    rfl
  · intro p cwd args h
    unfold gitCommit gitCommitBody
    rw [getGitM_notRepo p cwd args.repoPath h]
    rfl
  · intro p cwd args h
    unfold gitLog gitLogBody
    rw [getGitM_notRepo p cwd args.repoPath h]
    rfl
  · intro p cwd args h
    unfold gitShow gitShowBody
    rw [getGitM_notRepo p cwd args.repoPath h]
    rfl
  · intro p cwd args h
    unfold gitRebase gitRebaseBody
    rw [getGitM_notRepo p cwd args.repoPath h]
    rfl
  · intro p cwd args h
    unfold gitStash gitStashBody
    rw [getGitM_notRepo p cwd args.repoPath h]
    rfl
  · intro p cwd args h
    unfold gitStashPop gitStashPopBody
    rw [getGitM_notRepo p cwd args.repoPath h]
    rfl
  · intro p cwd args h
    unfold gitStashList gitStashListBody
    rw [getGitM_notRepo p cwd args.repoPath h]
    rfl
  · intro p cwd args h
    unfold gitCherryPick gitCherryPickBody
    rw [getGitM_notRepo p cwd args.repoPath h]
    rfl
  · intro p cwd args h
    unfold gitRemoteList gitRemoteListBody
    rw [getGitM_notRepo p cwd args.repoPath h]
    rfl
  · intro p cwd args h
    unfold gitRemoteAdd gitRemoteAddBody
    rw [getGitM_notRepo p cwd args.repoPath h]
    rfl
  · intro p cwd args h
    unfold gitFetch gitFetchBody
    rw [getGitM_notRepo p cwd args.repoPath h]
    rfl
  · intro p cwd args h
    unfold gitPull gitPullBody
    rw [getGitM_notRepo p cwd args.repoPath h]
    rfl
  · intro p cwd args h
    unfold gitPush gitPushBody
    rw [getGitM_notRepo p cwd args.repoPath h]
    rfl

/-- Claim C3, witness: the amended theorem applied to a provider whose
repository check reports false. -/
theorem c3_not_repo_amended_witness :
    gitBranchList providerNotRepo "/work" ({} : RepoArg) =
      (mkFail "Failed to list branches: "
        ("Not a git repository: " ++ basePath "/work" ({} : RepoArg).repoPath),
       [.checkIsRepo]) :=
  c3_not_repo_amended.2.1 providerNotRepo "/work" {} rfl

/-! ## Claim C4 -/

/-- Claim C4: for every operation, a fault raised during it (by any
provider primitive, carrying message m) is not rethrown: the operation
returns the envelope with success = false, no data, and message equal
to the operation's fixed "Failed to <action>: " prefix followed by the
fault's message verbatim. -/
theorem c4_fault_mapping :
    (∀ p cwd args m, (gitStatusBody p cwd args).1 = .error m →
      (gitStatus p cwd args).1 = mkFail "Failed to get status: " m) ∧
    (∀ p cwd args m, (gitInitBody p cwd args).1 = .error m →
      (gitInit p cwd args).1 = mkFail "Failed to initialize repository: " m) ∧
    (∀ p cwd args m, (gitCloneBody p cwd args).1 = .error m →
      (gitClone p cwd args).1 = mkFail "Failed to clone repository: " m) ∧
    (∀ p cwd args m, (gitBranchListBody p cwd args).1 = .error m →
      (gitBranchList p cwd args).1 = mkFail "Failed to list branches: " m) ∧
    (∀ p cwd args m, (gitBranchCreateBody p cwd args).1 = .error m →
      (gitBranchCreate p cwd args).1 = mkFail "Failed to create branch: " m) ∧
    (∀ p cwd args m, (gitBranchDeleteBody p cwd args).1 = .error m →
      (gitBranchDelete p cwd args).1 = mkFail "Failed to delete branch: " m) ∧
    (∀ p cwd args m, (gitCheckoutBody p cwd args).1 = .error m →
      (gitCheckout p cwd args).1 = mkFail "Failed to checkout: " m) ∧
    (∀ p cwd args m, (gitMergeBody p cwd args).1 = .error m →
      (gitMerge p cwd args).1 = mkFail "Failed to merge: " m) ∧
    (∀ p cwd args m, (gitDiffBody p cwd args).1 = .error m →
      (gitDiff p cwd args).1 = mkFail "Failed to get diff: " m) ∧
    (∀ p cwd args m, (gitAddBody p cwd args).1 = .error m →
      (gitAdd p cwd args).1 = mkFail "Failed to stage files: " m) ∧
    (∀ p cwd args m, (gitResetBody p cwd args).1 = .error m →
      (gitReset p cwd args).1 = mkFail "Failed to reset: " m) ∧
    (∀ p cwd args m, (gitRestoreBody p cwd args).1 = .error m →
      (gitRestore p cwd args).1 = mkFail "Failed to restore files: " m) ∧
    (∀ p cwd args m, (gitCommitBody p cwd args).1 = .error m →
      (gitCommit p cwd args).1 = mkFail "Failed to commit: " m) ∧
    (∀ p cwd args m, (gitLogBody p cwd args).1 = .error m →
      (gitLog p cwd args).1 = mkFail "Failed to get log: " m) ∧
    (∀ p cwd args m, (gitShowBody p cwd args).1 = .error m →
      (gitShow p cwd args).1 = mkFail "Failed to show commit: " m) ∧
    (∀ p cwd args m, (gitRebaseBody p cwd args).1 = .error m →
      (gitRebase p cwd args).1 = mkFail "Failed to rebase: " m) ∧
    (∀ p cwd args m, (gitStashBody p cwd args).1 = .error m →
      (gitStash p cwd args).1 = mkFail "Failed to stash: " m) ∧
    (∀ p cwd args m, (gitStashPopBody p cwd args).1 = .error m →
      (gitStashPop p cwd args).1 = mkFail "Failed to pop stash: " m) ∧
    (∀ p cwd args m, (gitStashListBody p cwd args).1 = .error m →
      (gitStashList p cwd args).1 = mkFail "Failed to list stashes: " m) ∧
    (∀ p cwd args m, (gitCherryPickBody p cwd args).1 = .error m →
      (gitCherryPick p cwd args).1 = mkFail "Failed to cherry-pick: " m) ∧
    (∀ p cwd args m, (gitRemoteListBody p cwd args).1 = .error m →
      (gitRemoteList p cwd args).1 = mkFail "Failed to list remotes: " m) ∧
    (∀ p cwd args m, (gitRemoteAddBody p cwd args).1 = .error m →
      (gitRemoteAdd p cwd args).1 = mkFail "Failed to add remote: " m) ∧
    (∀ p cwd args m, (gitFetchBody p cwd args).1 = .error m →
      (gitFetch p cwd args).1 = mkFail "Failed to fetch: " m) ∧
    (∀ p cwd args m, (gitPullBody p cwd args).1 = .error m →
      (gitPull p cwd args).1 = mkFail "Failed to pull: " m) ∧
    (∀ p cwd args m, (gitPushBody p cwd args).1 = .error m →
      (gitPush p cwd args).1 = mkFail "Failed to push: " m) := by
  refine ⟨?_, ?_, ?_, ?_, ?_, ?_, ?_, ?_, ?_, ?_, ?_, ?_, ?_, ?_, ?_, ?_, ?_, ?_, ?_,
    ?_, ?_, ?_, ?_, ?_, ?_⟩ <;>
  exact fun p cwd args m h => runOp_error _ _ _ h

/-- Claim C4, witness: the theorem applied to a provider whose push
primitive faults with message "Mock error for push". -/
theorem c4_fault_mapping_witness :
    (gitPush providerPushErr "/work" {}).1 = mkFail "Failed to push: " "Mock error for push" :=
  c4_fault_mapping.2.2.2.2.2.2.2.2.2.2.2.2.2.2.2.2.2.2.2.2.2.2.2.2
    providerPushErr "/work" {} "Mock error for push" rfl

/-! ## Claim C5 -/

/-- Claim C5: when both fromCommit and toCommit are supplied (as
non-empty strings), the argument list passed to the diff primitive
contains the single range token "<from><op><to>", where the operator is
"..." exactly when useThreeDotRange is true and ".." otherwise; the
subsequent diffSummary primitive receives the same argument list with
only the "--" separator token removed. -/
theorem c5_diff_range (p : GitProvider) (cwd : String) (args : DiffArgs)
    (f t d : String)
    (hfrom : args.fromCommit = some f) (hto : args.toCommit = some t)
    (hf : f ≠ "") (ht : t ≠ "")
    (hRepo : p.checkIsRepo = .ok true)
    (hDiff : p.diff (diffArgsFn args) = .ok d) :
    (f ++ (if args.useThreeDotRange then "..." else "..") ++ t) ∈ diffArgsFn args ∧
    (gitDiff p cwd args).2 =
      [.checkIsRepo, .diff (diffArgsFn args),
       .diffSummary ((diffArgsFn args).filter (fun a => !(a == "--")))] := by
  constructor
  · simp [diffArgsFn, hfrom, hto, oTruthy, hf, ht]
  · unfold gitDiff gitDiffBody
    rw [getGitM_ok p cwd args.repoPath hRepo]
    simp only [hDiff]
    cases hS : p.diffSummary ((diffArgsFn args).filter (fun a => !(a == "--"))) <;>
      simp [runOp, hS]

/-- Claim C5, witness: the theorem at fromCommit "abc123" and toCommit
"def456" against the all-succeeding provider. -/
theorem c5_diff_range_witness :
    "abc123..def456" ∈
      diffArgsFn { fromCommit := some "abc123", toCommit := some "def456" } ∧
    (gitDiff providerOK "/work"
      { fromCommit := some "abc123", toCommit := some "def456" }).2 =
      [.checkIsRepo, .diff ["abc123..def456"], .diffSummary ["abc123..def456"]] := by
  have h := c5_diff_range providerOK "/work"
    { fromCommit := some "abc123", toCommit := some "def456" }
    "abc123" "def456" "diff --git a/file.txt b/file.txt\n+added line"
    rfl rfl (by decide) (by decide) rfl rfl
  have e1 : diffArgsFn
      ({ fromCommit := some "abc123", toCommit := some "def456" } : DiffArgs) =
      ["abc123..def456"] := by decide
  have e2 : ("abc123" ++
      (if ({ fromCommit := some "abc123", toCommit := some "def456" } : DiffArgs).useThreeDotRange
        then "..." else "..") ++ "def456") = "abc123..def456" := by decide
  rw [e1, e2] at h
  exact ⟨h.1, by simpa using h.2⟩

/-! ## Claim C6 -/

/-- Claim C6: a gitCommit call with a non-empty files list stages
exactly that files list before invoking the commit primitive with the
given message, and the success envelope's data.commit equals the
identifier returned by the commit primitive, with message
"Committed changes: <identifier>". -/
theorem c6_commit_stages_then_commits (p : GitProvider) (cwd : String)
    (msg : String) (fs : List String) (amend : Bool) (rp : Option String)
    (r : GitCommitResult)
    (hfs : 0 < fs.length)
    (hRepo : p.checkIsRepo = .ok true)
    (hAdd : p.add fs = .ok ())
    (hCommit : p.commit msg none (commitOptionsFn amend) = .ok r) :
    gitCommit p cwd { message := msg, files := some fs, amend := amend, repoPath := rp } =
      ({ success := true, message := "Committed changes: " ++ r.commit,
         data := some (.commitData r.commit r.summary) },
       [.checkIsRepo, .add fs, .commit msg none (commitOptionsFn amend)]) := by
  unfold gitCommit gitCommitBody
  simp only [getGitM_ok p cwd rp hRepo]
  simp [hfs, hAdd, gitCommitFinish, hCommit, runOp]

/-- Claim C6, witness: the theorem at message "m" and files ["a.ts"]
against the all-succeeding provider (whose commit primitive returns
identifier "def456"). -/
theorem c6_commit_witness :
    gitCommit providerOK "/work" { message := "m", files := some ["a.ts"] } =
      ({ success := true, message := "Committed changes: def456",
         data := some (.commitData "def456"
           { changes := 1, insertions := 1, deletions := 0 }) },
       [.checkIsRepo, .add ["a.ts"], .commit "m" none { amendFlag := false }]) := by
  have h := c6_commit_stages_then_commits providerOK "/work" "m" ["a.ts"] false none
    mockCommitResult (by decide) rfl rfl rfl
  simpa [mockCommitResult, commitOptionsFn] using h

/-! ## Claim C7 -/

/-- Claim C7, counterexample: with maxCount present but equal to 0, the
log primitive is invoked with options in which maxCount is absent, so a
present maxCount is not always passed through verbatim. -/
theorem c7_log_passthrough_counterexample :
    (gitLog providerOK "/work" { maxCount := some 0 }).2 =
      [.checkIsRepo, .log { maxCount := none, file := none }] ∧
    (logOptionsFn { maxCount := some 0 }).maxCount = none ∧
    some (0 : Int) ≠ (none : Option Int) := by
  decide

/-- Claim C7, amended: maxCount is passed through verbatim to the log
primitive's options whenever it is present and non-zero (and likewise
file whenever present and non-empty; a present maxCount = 0 or
file = "" is treated as absent, by JS truthiness), and every commit
record in the returned data is the projection keeping only hash, date,
message, author_name and author_email - the body and refs fields are
omitted. -/
theorem c7_log_amended (p : GitProvider) (cwd : String) (args : LogArgs)
    (lr : GitLogResult)
    (hRepo : p.checkIsRepo = .ok true)
    (hLog : p.log (logOptionsFn args) = .ok lr) :
    (gitLog p cwd args).1 =
      { success := true,
        message := "Retrieved " ++ toString (lr.all.map projCommit).length ++ " commit(s)",
        data := some (.commits (lr.all.map projCommit)) } ∧
    (gitLog p cwd args).2 = [.checkIsRepo, .log (logOptionsFn args)] ∧
    (∀ c : Int, args.maxCount = some c → c ≠ 0 → (logOptionsFn args).maxCount = some c) ∧
    (∀ s : String, args.file = some s → s ≠ "" → (logOptionsFn args).file = some s) ∧
    (args.maxCount = some 0 → (logOptionsFn args).maxCount = none) := by
  refine ⟨?_, ?_, ?_, ?_, ?_⟩
  · unfold gitLog gitLogBody
    rw [getGitM_ok p cwd args.repoPath hRepo]
    simp [hLog, runOp]
  · unfold gitLog gitLogBody
    rw [getGitM_ok p cwd args.repoPath hRepo]
    simp [hLog, runOp]
  · intro c hc hc0
    have e : (c != 0) = true := by simpa using hc0
    simp [logOptionsFn, hc, e]
  · intro s hs hs0
    have e : (s != "") = true := by simpa using hs0
    simp [logOptionsFn, hs, e]
  · intro hc
    simp [logOptionsFn, hc]

/-- Claim C7, witness: the amended theorem at maxCount 5 and file
"README.md" against the all-succeeding provider. -/
theorem c7_log_amended_witness :
    (gitLog providerOK "/work" { maxCount := some 5, file := some "README.md" }).2 =
      [.checkIsRepo, .log { maxCount := some 5, file := some "README.md" }] ∧
    (logOptionsFn { maxCount := some 5, file := some "README.md" }).maxCount = some 5 ∧
    (logOptionsFn { maxCount := some 5, file := some "README.md" }).file =
      some "README.md" := by
  have h := c7_log_amended providerOK "/work"
    { maxCount := some 5, file := some "README.md" }
    { all := [mockCommitRec], total := 1, latest := some mockCommitRec } rfl rfl
  refine ⟨?_, ?_, ?_⟩
  · have e : logOptionsFn ({ maxCount := some 5, file := some "README.md" } : LogArgs) =
      { maxCount := some 5, file := some "README.md" } := by decide
    rw [e] at h
    exact h.2.1
  · exact h.2.2.1 5 rfl (by decide)
  · exact h.2.2.2.1 "README.md" rfl (by decide)

/-! ## Claim C8 -/

/-- Claim C8: gitBranchList is deterministic in its provider snapshot:
two providers that agree on the repository check and on the branch
query primitive (an unchanged snapshot across two successive calls)
yield identical response envelopes and call traces, hence byte-identical
serialized replies. -/
theorem c8_branch_list_deterministic (p q : GitProvider) (cwd : String) (args : RepoArg)
    (hCheck : p.checkIsRepo = q.checkIsRepo) (hBranch : p.branch = q.branch) :
    gitBranchList p cwd args = gitBranchList q cwd args := by
  unfold gitBranchList gitBranchListBody getGitM
  rw [hCheck, hBranch]

/-- Claim C8, witness: the theorem applied to two providers sharing the
same branch snapshot (one of them faulting on an unrelated primitive). -/
theorem c8_branch_list_deterministic_witness :
    gitBranchList providerOK "/work" {} = gitBranchList providerPushErr "/work" {} :=
  c8_branch_list_deterministic providerOK providerPushErr "/work" {} rfl rfl

/-! ## Claim C9 -/

/-- Claim C10: gitStashPop with index present (including index = 0)
passes exactly ["pop", "stash@{<index>}"] to the stash primitive and
reports "Applied stash@{<index>}"; with index absent it passes exactly
["pop"] and reports "Applied most recent stash". -/
theorem c10_stash_pop (p : GitProvider) (cwd : String) (rp : Option String) (i : Int)
    (hRepo : p.checkIsRepo = .ok true) :
    (p.stash ["pop", "stash@\x7b" ++ toString i ++ "\x7d"] = .ok () →
      gitStashPop p cwd { index := some i, repoPath := rp } =
        ({ success := true,
           message := "Applied stash@\x7b" ++ toString i ++ "\x7d", data := none },
         [.checkIsRepo, .stash ["pop", "stash@\x7b" ++ toString i ++ "\x7d"]])) ∧
    (p.stash ["pop"] = .ok () →
      gitStashPop p cwd { index := none, repoPath := rp } =
        ({ success := true, message := "Applied most recent stash", data := none },
         [.checkIsRepo, .stash ["pop"]])) := by
  constructor
  · intro hS
    unfold gitStashPop gitStashPopBody
    rw [getGitM_ok p cwd rp hRepo]
    simp [stashPopArgsFn] at hS ⊢
    simp [hS, runOp]
  · intro hS
    unfold gitStashPop gitStashPopBody
    rw [getGitM_ok p cwd rp hRepo]
    simp [stashPopArgsFn] at hS ⊢
    simp [hS, runOp]

/-- Claim C10, witness: the theorem at index 0 (and at absent index)
against the all-succeeding provider. -/
theorem c10_stash_pop_witness :
    gitStashPop providerOK "/work" { index := some 0 } =
      ({ success := true,
         message := "Applied stash@\x7b" ++ toString (0 : Int) ++ "\x7d", data := none },
       [.checkIsRepo, .stash ["pop", "stash@\x7b" ++ toString (0 : Int) ++ "\x7d"]]) ∧
    gitStashPop providerOK "/work" {} =
      ({ success := true, message := "Applied most recent stash", data := none },
       [.checkIsRepo, .stash ["pop"]]) := by
  have h := c10_stash_pop providerOK "/work" none 0 rfl
  exact ⟨h.1 rfl, h.2 rfl⟩
